import Mathlib

set_option maxHeartbeats 1000000
set_option maxRecDepth 10000

/-!
Verification of the feishu2md core: a shallow embedding of the block-tree
renderer (`core/parser.go`), the crawl/download orchestrator (the download
command) and the drive client (`core/client.go`).

Modelling conventions:
* Go pointers become `Option`; dereferencing a `nil` pointer (a runtime
  panic) is modelled by propagating `none` through an `Option`-valued
  result.
* The renderer's recursion through the block map may diverge on cyclic
  inputs, so the embedded renderer takes a fuel parameter; exhausted fuel
  also yields `none`.
* The `ImgTokens` side collection is only ever appended to
  (`ParseDocxBlockImage` is the sole writer), so the renderer is embedded
  in writer style: each call returns the markdown string together with the
  list of image tokens it appends, in order; callers concatenate.
* `lark.DocxBlockType` values handled by the source's switch are embedded
  as constructors; the `unknown` constructor stands for every value that
  falls into the switch's `default` branch.  The `file`, `sheet` and
  `bitable` variants are excluded from the embedded type universe: their
  renderers perform network/disk I/O through the client and are outside
  the pure fragment the claims are about.
* External collaborators that live outside this repository
  (`utils.UnescapeURL`, the `lark` enum constants keyed by
  `DocxCodeLang2MdStr`) are environment parameters.
-/

/-- The block type tags handled by `ParseDocxBlock`'s switch
(`unknown` = the switch's `default` branch). -/
inductive DocxBlockType where
  | page | text | callout
  | heading1 | heading2 | heading3 | heading4 | heading5
  | heading6 | heading7 | heading8 | heading9
  | bullet | ordered | code | quote | equation | todo
  | divider | image | tableCell | table | quoteContainer
  | diagram | iframe | grid
  | unknown
deriving DecidableEq, Repr

/-- lark.DocxTextElementTextRunTextElementStyleLink -/
structure TextElementStyleLink where
  url : String
deriving DecidableEq, Repr

/-- lark.DocxTextElementTextRunTextElementStyle: the style-flag set of a
text run. -/
structure TextElementStyle where
  bold : Bool
  italic : Bool
  strikethrough : Bool
  underline : Bool
  inlineCode : Bool
  link : Option TextElementStyleLink
deriving DecidableEq, Repr

/-- lark.DocxTextElementTextRun -/
structure DocxTextElementTextRun where
  content : String
  textElementStyle : Option TextElementStyle
deriving DecidableEq, Repr

/-- lark.DocxTextElementMentionUser -/
structure MentionUser where
  userID : String
deriving DecidableEq, Repr

/-- lark.DocxTextElementMentionDoc -/
structure MentionDoc where
  title : String
  url : String
deriving DecidableEq, Repr

/-- lark.DocxTextElementEquation -/
structure EquationElement where
  content : String
deriving DecidableEq, Repr

/-- lark.DocxTextElement: the four optional sub-payloads are rendered in
declaration order by `ParseDocxTextElement`. -/
structure DocxTextElement where
  textRun : Option DocxTextElementTextRun
  mentionUser : Option MentionUser
  mentionDoc : Option MentionDoc
  equation : Option EquationElement
deriving DecidableEq, Repr

/-- lark.DocxBlockTextStyle, restricted to the two fields the renderer
reads (`Language` for code blocks, `Done` for todo blocks).  The language
is the numeric value of the external `lark.DocxCodeLanguage` enum. -/
structure DocxBlockTextStyle where
  language : Nat
  done : Bool
deriving DecidableEq, Repr

/-- lark.DocxBlockText -/
structure DocxBlockText where
  style : Option DocxBlockTextStyle
  elements : List DocxTextElement
deriving DecidableEq, Repr

/-- lark.DocxBlockImage -/
structure DocxBlockImage where
  token : String
deriving DecidableEq, Repr

/-- lark.DocxBlockTablePropertyMergeInfo: spans are int64 in Go. -/
structure DocxBlockTablePropertyMergeInfo where
  rowSpan : Int
  colSpan : Int
deriving DecidableEq, Repr

/-- lark.DocxBlockTableProperty.  `mergeInfo` entries may be nil pointers
in Go, hence `Option`; a nil slice and an empty slice behave alike. -/
structure DocxBlockTableProperty where
  rowSize : Nat
  columnSize : Nat
  mergeInfo : List (Option DocxBlockTablePropertyMergeInfo)
deriving DecidableEq, Repr

/-- lark.DocxBlockTable -/
structure DocxBlockTable where
  cells : List String
  property : DocxBlockTableProperty
deriving DecidableEq, Repr

/-- lark.DocxBlockDiagram -/
structure DocxBlockDiagram where
  diagramType : Int
deriving DecidableEq, Repr

/-- lark.DocxBlockIframeComponent -/
structure IframeComponent where
  iframeType : Int
  url : String
deriving DecidableEq, Repr

/-- lark.DocxBlockIframe -/
structure DocxBlockIframe where
  component : Option IframeComponent
deriving DecidableEq, Repr

/-- lark.DocxBlock: identifier, parent, type tag, child identifiers and
the per-type optional payloads the renderer dereferences. -/
structure DocxBlock where
  blockID : String
  parentID : String
  blockType : DocxBlockType
  children : List String
  page : Option DocxBlockText
  text : Option DocxBlockText
  heading1 : Option DocxBlockText
  heading2 : Option DocxBlockText
  heading3 : Option DocxBlockText
  heading4 : Option DocxBlockText
  heading5 : Option DocxBlockText
  heading6 : Option DocxBlockText
  heading7 : Option DocxBlockText
  heading8 : Option DocxBlockText
  heading9 : Option DocxBlockText
  bullet : Option DocxBlockText
  ordered : Option DocxBlockText
  code : Option DocxBlockText
  quote : Option DocxBlockText
  equation : Option DocxBlockText
  todo : Option DocxBlockText
  image : Option DocxBlockImage
  table : Option DocxBlockTable
  diagram : Option DocxBlockDiagram
  iframe : Option DocxBlockIframe
deriving DecidableEq, Repr

/-- A block with only identity, type and children; payloads are filled in
with structure-update syntax. -/
def mkBlock (id pid : String) (bt : DocxBlockType) (cs : List String) : DocxBlock :=
  ⟨id, pid, bt, cs, none, none, none, none, none, none, none, none, none,
   none, none, none, none, none, none, none, none, none, none, none, none⟩

/-- lark.DocxDocument -/
structure DocxDocument where
  documentID : String
  revisionID : Int
  title : String
deriving DecidableEq, Repr

/-- The renderer's environment: the parser configuration (`useHTMLTags`),
the block index (`blockMap`, a Go map, so lookup misses give `none`), and
the two external collaborators used by the inline renderers
(`utils.UnescapeURL` and the `DocxCodeLang2MdStr` table, which is keyed by
`lark` enum constants defined outside this repository; a Go map lookup
miss gives `""`). -/
structure Env where
  useHTMLTags : Bool
  blockMap : String → Option DocxBlock
  unescapeURL : String → String
  codeLangToMd : Nat → String

/-- strings.Repeat -/
def strRepeat (s : String) (n : Nat) : String :=
  String.join (List.replicate n s)

/-- strings.ReplaceAll content "\n" "" (for the single-character pattern
with empty replacement this is exactly dropping every newline). -/
def stripNewlines (s : String) : String :=
  String.mk (s.toList.filter (fun c => c ≠ '\n'))

/-- strings.TrimRight content "\n": drop every trailing newline. -/
def trimRightNewlines (s : String) : String :=
  String.mk (s.toList.reverse.dropWhile (fun c => c = '\n')).reverse

/-- strings.TrimSuffix content "\n": drop one trailing newline if present. -/
def trimSuffixNewline (s : String) : String :=
  if s.toList.getLast? = some '\n' then String.mk s.toList.dropLast else s

/-- strings.TrimSpace (ASCII whitespace; the Go original trims the full
Unicode White_Space class, of which only the ASCII part occurs here). -/
def trimSpaceGo (s : String) : String :=
  let ws : Char → Bool := fun c => c = ' ' || c = '\t' || c = '\n' || c = '\r'
  String.mk (((s.toList.dropWhile ws).reverse.dropWhile ws).reverse)

/-- Number of occurrences of `pat` as a substring of `s` (counted at every
start position). -/
def countSubstr (s pat : String) : Nat :=
  (s.toList.tails.filter (fun t => pat.toList.isPrefixOf t)).length

/-- `pat` occurs somewhere in `s`. -/
def containsStr (s pat : String) : Prop :=
  pat.toList <:+: s.toList

instance (s pat : String) : Decidable (containsStr s pat) := by
  unfold containsStr
  infer_instance

/-- ParseDocxTextElementTextRun: the if/else-if chain over the style
flags; at most one wrapper is applied. -/
def ParseDocxTextElementTextRun (env : Env) (tr : DocxTextElementTextRun) : String :=
  match tr.textElementStyle with
  | none => tr.content
  | some style =>
    if style.bold then
      if env.useHTMLTags then "<strong>" ++ tr.content ++ "</strong>"
      else "**" ++ tr.content ++ "**"
    else if style.italic then
      if env.useHTMLTags then "<em>" ++ tr.content ++ "</em>"
      else "_" ++ tr.content ++ "_"
    else if style.strikethrough then
      if env.useHTMLTags then "<del>" ++ tr.content ++ "</del>"
      else "~~" ++ tr.content ++ "~~"
    else if style.underline then "<u>" ++ tr.content ++ "</u>"
    else if style.inlineCode then "`" ++ tr.content ++ "`"
    else
      match style.link with
      | some l => "[" ++ tr.content ++ "](" ++ env.unescapeURL l.url ++ ")"
      | none => tr.content

/-- ParseDocxTextElement: each present sub-payload is written in order. -/
def ParseDocxTextElement (env : Env) (e : DocxTextElement) (inline : Bool) : String :=
  (match e.textRun with
   | some tr => ParseDocxTextElementTextRun env tr
   | none => "") ++
  (match e.mentionUser with
   | some mu => mu.userID
   | none => "") ++
  (match e.mentionDoc with
   | some md => "[" ++ md.title ++ "](" ++ env.unescapeURL md.url ++ ")"
   | none => "") ++
  (match e.equation with
   | some eq =>
     let symbol := if inline then "$" else "$$"
     symbol ++ trimSuffixNewline eq.content ++ symbol
   | none => "")

/-- ParseDocxBlockText: a nil `*DocxBlockText` argument is dereferenced in
Go (`len(b.Elements)`), hence `none` input means panic (`none` output). -/
def ParseDocxBlockText (env : Env) (b : Option DocxBlockText) : Option String :=
  match b with
  | none => none
  | some bt =>
    let inline := bt.elements.length > 1
    some (String.join (bt.elements.map (fun e => ParseDocxTextElement env e inline)) ++ "\n")

/-- The backward scan of `ParseDocxBlockOrdered` over the reversed prefix
of preceding siblings: count while the sibling's type is `ordered`, stop
at the first other type; dereferencing an unresolved sibling is a panic
(`none`). -/
def countOrderedRun (env : Env) : List String → Option Nat
  | [] => some 0
  | id :: rest =>
    match env.blockMap id with
    | none => none
    | some blk =>
      if blk.blockType = DocxBlockType.ordered then
        (countOrderedRun env rest).map (fun k => k + 1)
      else some 0

/-- The `order` computation of `ParseDocxBlockOrdered`: look the parent up
(nil dereference if absent), find this block among the parent's children
(first match; if absent the order stays 1), then scan the immediately
preceding siblings backwards. -/
def computeOrder (env : Env) (b : DocxBlock) : Option Nat :=
  match env.blockMap b.parentID with
  | none => none
  | some parent =>
    match parent.children.findIdx? (fun c => c = b.blockID) with
    | none => some 1
    | some idx =>
      (countOrderedRun env ((parent.children.take idx).reverse)).map (fun k => 1 + k)

/-- Concatenate child render results, appending `sep` after every child's
string (the shape of the renderer's children loops), and concatenate the
collected image tokens in order. -/
def joinRendered (sep : String) (rs : List (String × List String)) : String × List String :=
  (String.join (rs.map (fun r => r.1 ++ sep)), (rs.map (fun r => r.2)).flatten)

/-- The reflection lookup `FieldByName("Heading%d")` of
`ParseDocxBlockHeading`, made explicit. -/
def headingField (b : DocxBlock) : Nat → Option DocxBlockText
  | 1 => b.heading1
  | 2 => b.heading2
  | 3 => b.heading3
  | 4 => b.heading4
  | 5 => b.heading5
  | 6 => b.heading6
  | 7 => b.heading7
  | 8 => b.heading8
  | 9 => b.heading9
  | _ => none

/-- ParseDocxBlockImage: emit the image reference and record the token. -/
def ParseDocxBlockImage (img : DocxBlockImage) : String × List String :=
  ("![](" ++ img.token ++ ")\n", [img.token])

/-- ParseDocxBlockDiagram -/
def ParseDocxBlockDiagram (d : DocxBlockDiagram) : String × List String :=
  let diagramType := if d.diagramType = 2 then "UML图" else "流程图"
  ("\n\n" ++ "**📈 " ++ diagramType ++ "**\n\n" ++
   "> *注：流程图/UML图无法直接转换为 Markdown，建议导出为图片或使用 Mermaid 语法*\n" ++
   "\n\n", [])

/-- The `typeNames` table of ParseDocxBlockIframe (Go map literal; a
lookup miss keeps the default name). -/
def iframeTypeName (t : Int) : String :=
  if t = 1 then "哔哩哔哩" else if t = 2 then "西瓜视频"
  else if t = 3 then "优酷" else if t = 4 then "Airtable"
  else if t = 5 then "百度地图" else if t = 6 then "高德地图"
  else if t = 7 then "TikTok" else if t = 8 then "Figma"
  else if t = 9 then "墨刀" else if t = 10 then "Canva"
  else if t = 11 then "CodePen" else if t = 12 then "飞书问卷"
  else if t = 13 then "金数据" else if t = 14 then "谷歌地图"
  else if t = 15 then "YouTube" else if t = 99 then "其他"
  else "未知类型"

/-- ParseDocxBlockIframe -/
def ParseDocxBlockIframe (f : DocxBlockIframe) : String × List String :=
  ("\n\n" ++ "**🔗 嵌入内容**\n\n" ++
   (match f.component with
    | some c =>
      "> 类型: " ++ iframeTypeName c.iframeType ++ "\n" ++
      (if c.url ≠ "" then ">\n" ++ "> 链接: " ++ c.url ++ "\n" else "")
    | none => "") ++
   ">\n" ++ "> *注：嵌入内容无法直接在 Markdown 中显示，请访问飞书查看原始内容*\n" ++
   "\n\n", [])

/-- ParseDocxBlockPage: `# ` + page text + a newline, then every child
rendered at indent 0 with a newline appended after each. -/
def ParseDocxBlockPage (env : Env)
    (recRender : Option DocxBlock → Nat → Option (String × List String))
    (b : DocxBlock) : Option (String × List String) := do
  let t ← ParseDocxBlockText env b.page
  let rs ← b.children.mapM (fun id => recRender (env.blockMap id) 0)
  let j := joinRendered "\n" rs
  return ("# " ++ t ++ "\n" ++ j.1, j.2)

/-- ParseDocxBlockCallout: fixed marker, then children at indent 0. -/
def ParseDocxBlockCallout (env : Env)
    (recRender : Option DocxBlock → Nat → Option (String × List String))
    (b : DocxBlock) : Option (String × List String) := do
  let rs ← b.children.mapM (fun id => recRender (env.blockMap id) 0)
  let j := joinRendered "" rs
  return (">[!TIP] \n" ++ j.1, j.2)

/-- ParseDocxBlockHeading: `#`×level + heading text, then children at
indent 0. -/
def ParseDocxBlockHeading (env : Env)
    (recRender : Option DocxBlock → Nat → Option (String × List String))
    (b : DocxBlock) (headingLevel : Nat) : Option (String × List String) := do
  let t ← ParseDocxBlockText env (headingField b headingLevel)
  let rs ← b.children.mapM (fun id => recRender (env.blockMap id) 0)
  let j := joinRendered "" rs
  return (strRepeat "#" headingLevel ++ " " ++ t ++ j.1, j.2)

/-- ParseDocxBlockBullet: `- ` + text, then children at indentLevel+1. -/
def ParseDocxBlockBullet (env : Env)
    (recRender : Option DocxBlock → Nat → Option (String × List String))
    (b : DocxBlock) (indentLevel : Nat) : Option (String × List String) := do
  let t ← ParseDocxBlockText env b.bullet
  let rs ← b.children.mapM (fun id => recRender (env.blockMap id) (indentLevel + 1))
  let j := joinRendered "" rs
  return ("- " ++ t ++ j.1, j.2)

/-- ParseDocxBlockOrdered: computed order + text, then children at
indentLevel+1. -/
def ParseDocxBlockOrdered (env : Env)
    (recRender : Option DocxBlock → Nat → Option (String × List String))
    (b : DocxBlock) (indentLevel : Nat) : Option (String × List String) := do
  let order ← computeOrder env b
  let t ← ParseDocxBlockText env b.ordered
  let rs ← b.children.mapM (fun id => recRender (env.blockMap id) (indentLevel + 1))
  let j := joinRendered "" rs
  return (toString order ++ ". " ++ t ++ j.1, j.2)

/-- ParseDocxBlockTableCell: children at indent 0, each followed by
`<br/>`. -/
def ParseDocxBlockTableCell (env : Env)
    (recRender : Option DocxBlock → Nat → Option (String × List String))
    (b : DocxBlock) : Option (String × List String) := do
  let rs ← b.children.mapM (fun id => recRender (env.blockMap id) 0)
  let j := joinRendered "<br/>" rs
  return (j.1, j.2)

/-- Grow a list to length `n` with copies of `x` (the renderer's
`for len(rows) <= idx` append loops). -/
def padTo {α : Type} (l : List α) (n : Nat) (x : α) : List α :=
  l ++ List.replicate (n - l.length) x

/-- The grid-building loop of ParseDocxBlockTable: the i-th cell content
is placed at (i / columnSize, i % columnSize), growing rows lazily. -/
def buildRows (cc : Nat) (contents : List String) : List (List String) :=
  contents.enum.foldl
    (fun rows pair =>
      let rowIndex := pair.1 / cc
      let colIndex := pair.1 % cc
      let rows2 := padTo rows (rowIndex + 1) []
      let row := padTo (rows2.getD rowIndex []) (colIndex + 1) ""
      rows2.set rowIndex (row.set colIndex pair.2))
    []

/-- The mergeInfoMap construction of ParseDocxBlockTable: the i-th merge
entry (possibly a nil pointer) keys position (i / columnSize,
i % columnSize); later entries overwrite. -/
def buildMergeInfoMap (cc : Nat) (mis : List (Option DocxBlockTablePropertyMergeInfo)) :
    Nat → Nat → Option DocxBlockTablePropertyMergeInfo :=
  mis.enum.foldl
    (fun m pair => fun r c =>
      if r = pair.1 / cc ∧ c = pair.1 % cc then pair.2 else m r c)
    (fun _ _ => none)

/-- The rectangle of grid positions consumed by a merge anchored at
(ri, ci): r in [ri, ri+rowSpan), c in [ci, ci+colSpan) (empty when a span
is not positive, exactly like the Go `for` loops). -/
def mergeSpanPairs (ri ci : Nat) (mi : DocxBlockTablePropertyMergeInfo) : List (Nat × Nat) :=
  (List.range mi.rowSpan.toNat).flatMap
    (fun dr => (List.range mi.colSpan.toNat).map (fun dc => (ri + dr, ci + dc)))

/-- The HTML-emission loop of ParseDocxBlockTable: scan the grid in
row-major order with a processed-cell set; a position already covered by
an earlier merge is skipped; a merge entry emits a `<td>` carrying only
the attributes whose span exceeds 1 and consumes its rectangle; otherwise
a plain `<td>` is emitted. -/
def renderTableRows (mim : Nat → Nat → Option DocxBlockTablePropertyMergeInfo)
    (rows : List (List String)) : String :=
  (rows.enum.foldl
    (fun (acc : String × List (Nat × Nat)) (rowPair : Nat × List String) =>
      let rowIndex := rowPair.1
      let inner := rowPair.2.enum.foldl
        (fun (acc2 : String × List (Nat × Nat)) (cellPair : Nat × String) =>
          let colIndex := cellPair.1
          let cellContent := cellPair.2
          if acc2.2.contains (rowIndex, colIndex) then acc2
          else
            match mim rowIndex colIndex with
            | some mi =>
              let attributes :=
                (if mi.rowSpan > 1 then " rowspan=\"" ++ toString mi.rowSpan ++ "\"" else "") ++
                (if mi.colSpan > 1 then " colspan=\"" ++ toString mi.colSpan ++ "\"" else "")
              (acc2.1 ++ "<td" ++ attributes ++ ">" ++ cellContent ++ "</td>",
               acc2.2 ++ mergeSpanPairs rowIndex colIndex mi)
            | none => (acc2.1 ++ "<td>" ++ cellContent ++ "</td>", acc2.2))
        (acc.1 ++ "<tr>\n", acc.2)
      (inner.1 ++ "</tr>\n", inner.2))
    ("<table>\n", [])).1 ++ "</table>\n"

/-- ParseDocxBlockTable.  The guard reflects that with `columnSize = 0`
the Go code divides by zero (a panic) as soon as it has a merge entry or a
cell to place; each cell's recursive render has its newlines stripped. -/
def ParseDocxBlockTable (env : Env)
    (recRender : Option DocxBlock → Nat → Option (String × List String))
    (t : DocxBlockTable) : Option (String × List String) :=
  if t.property.columnSize = 0 ∧ (t.property.mergeInfo ≠ [] ∨ t.cells ≠ []) then none
  else do
    let rendered ← t.cells.mapM (fun id => recRender (env.blockMap id) 0)
    let contents := rendered.map (fun r => stripNewlines r.1)
    let mim := buildMergeInfoMap t.property.columnSize t.property.mergeInfo
    let rows := buildRows t.property.columnSize contents
    return (renderTableRows mim rows, (rendered.map (fun r => r.2)).flatten)

/-- The emission loop of ParseDocxBlockQuoteContainer over the rendered
children: `> ` + content with trailing newlines trimmed + two spaces, and
a newline after every piece but the last. -/
def qcJoin : List String → String
  | [] => ""
  | [c] => "> " ++ trimRightNewlines c ++ "  "
  | c :: rest => "> " ++ trimRightNewlines c ++ "  " ++ "\n" ++ qcJoin rest

/-- ParseDocxBlockQuoteContainer -/
def ParseDocxBlockQuoteContainer (env : Env)
    (recRender : Option DocxBlock → Nat → Option (String × List String))
    (b : DocxBlock) : Option (String × List String) :=
  (b.children.mapM (fun id => recRender (env.blockMap id) 0)).map
    (fun rs => (qcJoin (rs.map (fun r => r.1)), (rs.map (fun r => r.2)).flatten))

/-- ParseDocxBlockGrid: each child is a grid-column block (nil
dereference if unresolved) whose own children are rendered at the same
indent level. -/
def ParseDocxBlockGrid (env : Env)
    (recRender : Option DocxBlock → Nat → Option (String × List String))
    (b : DocxBlock) (indentLevel : Nat) : Option (String × List String) := do
  let cols ← b.children.mapM (fun id =>
      match env.blockMap id with
      | none => none
      | some columnBlock =>
        (columnBlock.children.mapM (fun id2 => recRender (env.blockMap id2) indentLevel)).map
          (joinRendered ""))
  return (String.join (cols.map (fun c => c.1)), (cols.map (fun c => c.2)).flatten)

/-- The `default` branch of the switch: an unsupported block type renders
only its children, at the same indent level. -/
def ParseDocxBlockChildrenDefault (env : Env)
    (recRender : Option DocxBlock → Nat → Option (String × List String))
    (b : DocxBlock) (indentLevel : Nat) : Option (String × List String) :=
  (b.children.mapM (fun id => recRender (env.blockMap id) indentLevel)).map (joinRendered "")

/-- ParseDocxBlock: write the indent prefix, then dispatch on the block
type.  A `none` block is a nil pointer: the Go switch dereferences it
(`b.BlockType`) and panics. -/
def ParseDocxBlock : Nat → Env → Option DocxBlock → Nat → Option (String × List String)
  | 0, _, _, _ => none
  | fuel + 1, env, ob, indentLevel =>
    match ob with
    | none => none
    | some b =>
      let body : Option (String × List String) :=
        match b.blockType with
        | .page => ParseDocxBlockPage env (ParseDocxBlock fuel env) b
        | .text => (ParseDocxBlockText env b.text).map (fun s => (s, []))
        | .callout => ParseDocxBlockCallout env (ParseDocxBlock fuel env) b
        | .heading1 => ParseDocxBlockHeading env (ParseDocxBlock fuel env) b 1
        | .heading2 => ParseDocxBlockHeading env (ParseDocxBlock fuel env) b 2
        | .heading3 => ParseDocxBlockHeading env (ParseDocxBlock fuel env) b 3
        | .heading4 => ParseDocxBlockHeading env (ParseDocxBlock fuel env) b 4
        | .heading5 => ParseDocxBlockHeading env (ParseDocxBlock fuel env) b 5
        | .heading6 => ParseDocxBlockHeading env (ParseDocxBlock fuel env) b 6
        | .heading7 => ParseDocxBlockHeading env (ParseDocxBlock fuel env) b 7
        | .heading8 => ParseDocxBlockHeading env (ParseDocxBlock fuel env) b 8
        | .heading9 => ParseDocxBlockHeading env (ParseDocxBlock fuel env) b 9
        | .bullet => ParseDocxBlockBullet env (ParseDocxBlock fuel env) b indentLevel
        | .ordered => ParseDocxBlockOrdered env (ParseDocxBlock fuel env) b indentLevel
        | .code =>
          match b.code with
          | none => none
          | some codeText =>
            match codeText.style with
            | none => none
            | some st =>
              (ParseDocxBlockText env (some codeText)).map (fun s =>
                ("```" ++ env.codeLangToMd st.language ++ "\n" ++
                 trimSpaceGo s ++ "\n```\n", []))
        | .quote => (ParseDocxBlockText env b.quote).map (fun s => ("> " ++ s, []))
        | .equation =>
          (ParseDocxBlockText env b.equation).map (fun s => ("$$\n" ++ s ++ "\n$$\n", []))
        | .todo =>
          match b.todo with
          | none => none
          | some todoText =>
            match todoText.style with
            | none => none
            | some st =>
              (ParseDocxBlockText env (some todoText)).map (fun s =>
                ((if st.done then "- [x] " else "- [ ] ") ++ s, []))
        | .divider => some ("---\n", [])
        | .image => b.image.map ParseDocxBlockImage
        | .tableCell => ParseDocxBlockTableCell env (ParseDocxBlock fuel env) b
        | .table => b.table.bind (ParseDocxBlockTable env (ParseDocxBlock fuel env))
        | .quoteContainer => ParseDocxBlockQuoteContainer env (ParseDocxBlock fuel env) b
        | .grid => ParseDocxBlockGrid env (ParseDocxBlock fuel env) b indentLevel
        | .diagram => b.diagram.map ParseDocxBlockDiagram
        | .iframe => b.iframe.map ParseDocxBlockIframe
        | .unknown => ParseDocxBlockChildrenDefault env (ParseDocxBlock fuel env) b indentLevel
      body.map (fun r => (strRepeat "\t" indentLevel ++ r.1, r.2))

/-- The block-map insertion loop of ParseDocxContent (Go map writes: a
later block with the same identifier overwrites). -/
def buildBlockMap : List DocxBlock → (String → Option DocxBlock) → (String → Option DocxBlock)
  | [], m => m
  | b :: bs, m => buildBlockMap bs (fun id => if id = b.blockID then some b else m id)

/-- ParseDocxContent: index the flat block collection into the parser's
persistent block map, then render the entry block (looked up by the
document identifier) at indent 0.  The updated block map is returned as
the parser state it is in Go. -/
def ParseDocxContent (useHTML : Bool) (unesc : String → String) (langMap : Nat → String)
    (blockMap0 : String → Option DocxBlock) (fuel : Nat) (doc : DocxDocument)
    (blocks : List DocxBlock) :
    Option (String × List String) × (String → Option DocxBlock) :=
  let m := buildBlockMap blocks blockMap0
  let env : Env := ⟨useHTML, m, unesc, langMap⟩
  (ParseDocxBlock fuel env (m doc.documentID) 0, m)

/-!
Crawl orchestrator (`downloadDocuments` / `downloadWiki`).

The leaf tasks run as goroutines; a task that fails sends its error on
the shared channel, a task that succeeds is silent and leaves its output
on disk.  After `wg.Wait()` the channel is closed and
`for err := range errChan { return err }` returns the first received
error, or `nil` when the channel closes empty.  Goroutine scheduling is
nondeterministic, so a crawl execution is modelled by the list of task
outcomes in completion order — an arbitrary permutation of the dispatched
tasks; the channel receives the errors in that order.  Nothing ever
deletes an output, so the disk after the walk holds every successful
task's output.
-/

/-- Outcome of one dispatched leaf task: the error it sends on the error
channel (if it fails) and the file it leaves on disk (if it succeeds). -/
structure CrawlTask where
  err : Option String
  output : Option String
deriving DecidableEq, Repr

/-- The errors received over the error channel, in completion order. -/
def receivedErrors (completed : List CrawlTask) : List String :=
  completed.filterMap (fun t => t.err)

/-- The `for err := range errChan { return err }` loop: the first
received error, or `none` when the closed channel was empty. -/
def walkResult (completed : List CrawlTask) : Option String :=
  (receivedErrors completed).head?

/-- The files on disk after the walk: every successful task's output (no
rollback exists anywhere in the walk). -/
def diskOutputs (completed : List CrawlTask) : List String :=
  completed.filterMap (fun t => t.output)

/-!
Concurrency bound of the two walks.

`downloadWiki` creates `semaphore := make(chan struct{}, 10)`; the
dispatch loop performs `semaphore <- struct{}{}` (blocking while 10
permits are held) immediately before `go ...`, and each task ends with
`<-semaphore`.  `downloadDocuments` dispatches `go ...` with no
semaphore.  Each walk is modelled as a transition system over the count
of held permits and running leaf tasks.
-/

/-- State of the hierarchical-wiki walk: semaphore permits currently
held and leaf goroutines currently running. -/
structure WikiWalkState where
  permits : Nat
  running : Nat
deriving DecidableEq, Repr

/-- Steps of the wiki walk: a dispatch acquires a permit (blocking unless
fewer than 10 are held) and starts one leaf task; a finishing task stops
running and releases its permit. -/
inductive WikiStep : WikiWalkState → WikiWalkState → Prop
  | dispatch (s : WikiWalkState) (h : s.permits < 10) :
      WikiStep s ⟨s.permits + 1, s.running + 1⟩
  | finish (s : WikiWalkState) (h : 0 < s.running) :
      WikiStep s ⟨s.permits - 1, s.running - 1⟩

/-- States the wiki walk can reach from the initial idle state. -/
inductive ReachableWiki : WikiWalkState → Prop
  | init : ReachableWiki ⟨0, 0⟩
  | step {s t : WikiWalkState} : ReachableWiki s → WikiStep s t → ReachableWiki t

/-- State of the flat-folder walk: running leaf tasks only (there is no
semaphore). -/
structure FolderWalkState where
  running : Nat
deriving DecidableEq, Repr

/-- Steps of the folder walk: dispatch is unguarded. -/
inductive FolderStep : FolderWalkState → FolderWalkState → Prop
  | dispatch (s : FolderWalkState) : FolderStep s ⟨s.running + 1⟩
  | finish (s : FolderWalkState) (h : 0 < s.running) : FolderStep s ⟨s.running - 1⟩

/-- States the folder walk can reach from the initial idle state. -/
inductive ReachableFolder : FolderWalkState → Prop
  | init : ReachableFolder ⟨0⟩
  | step {s t : FolderWalkState} : ReachableFolder s → FolderStep s t → ReachableFolder t

/-!
Drive client (`core/client.go`): `DownloadFile` and
`createFilePlaceholder`.  The two remote download APIs and the local
file-system operations are external capabilities; one call of
`DownloadFile` is modelled as a pure function of their outcomes for this
call.  Results are `(path, error)` pairs as in Go.
-/

/-- Result payload of a successful drive download call. -/
structure DriveFileResp where
  filename : String
deriving DecidableEq, Repr

/-- Outcome of one remote download API call: the returned error and the
response pointer (which Go checks for nil separately). -/
structure DriveAPIResult where
  err : Option String
  resp : Option DriveFileResp
deriving DecidableEq, Repr

/-- Outcomes of the local file-system operations `DownloadFile` and
`createFilePlaceholder` may perform. -/
structure LocalFS where
  mkdirAllErr : Option String
  openFileErr : Option String
  copyErr : Option String
  writeFileErr : Option String
deriving DecidableEq, Repr

/-- filepath.Join, modelled as separator concatenation (path cleaning
does not matter to the claims). -/
def pathJoin (a b : String) : String := a ++ "/" ++ b

/-- The objType → human-readable file type switch of
createFilePlaceholder. -/
def fileTypeOf (objType : String) : String :=
  if objType = "mindnote" then "思维导图"
  else if objType = "file" then "文件"
  else if objType = "sheet" then "表格"
  else if objType = "bitable" then "多维表格"
  else "文件"

/-- The placeholder markdown content written by createFilePlaceholder. -/
def placeholderContent (fileToken objType title : String) : String :=
  let fileType := fileTypeOf objType
  "# " ++ title ++ "\n\n**文件类型**: " ++ fileType ++ "\n\n" ++
  "**文件Token**: `" ++ fileToken ++ "`\n\n" ++
  "**提示**: 这是一个" ++ fileType ++ "文件，无法直接转换为Markdown。\n\n" ++
  "请访问飞书查看原始文件: [点击打开](https://jinniuai.feishu.cn/" ++
  objType ++ "/" ++ fileToken ++ ")\n"

/-- createFilePlaceholder: write `title + ".md"` in `outDir`; a failing
local operation is returned as the error, otherwise the path is returned
with a nil error. -/
def createFilePlaceholder (fs : LocalFS) (fileToken outDir objType title : String) :
    String × Option String :=
  let mdPath := pathJoin outDir (title ++ ".md")
  match fs.mkdirAllErr with
  | some e => ("", some e)
  | none =>
    match fs.writeFileErr with
    | some e => ("", some e)
    | none => (mdPath, none)

/-- The tail of DownloadFile after a successful remote call: pick the
response filename (falling back to the token), then MkdirAll, OpenFile
and Copy, failing on the first local error. -/
def writeDownloadedFile (fs : LocalFS) (outDir fileToken : String) (r : DriveFileResp) :
    String × Option String :=
  let filename := if r.filename = "" then fileToken else r.filename
  let filePath := pathJoin outDir filename
  match fs.mkdirAllErr with
  | some e => ("", some e)
  | none =>
    match fs.openFileErr with
    | some e => ("", some e)
    | none =>
      match fs.copyErr with
      | some e => ("", some e)
      | none => (filePath, none)

/-- DownloadFile: try DownloadDriveFile; on error (or nil response) fall
back to DownloadDriveMedia; when both fail (or the fallback response is
nil), create the placeholder instead of returning the remote error. -/
def DownloadFile (driveFile media : DriveAPIResult) (fs : LocalFS)
    (fileToken outDir objType title : String) : String × Option String :=
  match driveFile.err with
  | some _ =>
    match media.err with
    | some _ => createFilePlaceholder fs fileToken outDir objType title
    | none =>
      match media.resp with
      | none => createFilePlaceholder fs fileToken outDir objType title
      | some r => writeDownloadedFile fs outDir fileToken r
  | none =>
    match driveFile.resp with
    | none => createFilePlaceholder fs fileToken outDir objType title
    | some r => writeDownloadedFile fs outDir fileToken r

/-!
Shared concrete fixtures for witnesses and counterexamples.
-/

/-- Identity stand-in for utils.UnescapeURL in concrete examples. -/
def exUnesc : String → String := fun s => s

/-- Empty code-language table for concrete examples. -/
def exLang : Nat → String := fun _ => ""

/-- The empty block map. -/
def emptyBlockMap : String → Option DocxBlock := fun _ => none

/-- A text element holding one unstyled text run. -/
def exElem (s : String) : DocxTextElement :=
  ⟨some ⟨s, none⟩, none, none, none⟩

/-- Block text holding one unstyled run. -/
def exText (s : String) : DocxBlockText := ⟨none, [exElem s]⟩

/-- An environment over the given flat block collection (HTML-tag mode
off). -/
def exEnvOf (blocks : List DocxBlock) : Env :=
  ⟨false, buildBlockMap blocks emptyBlockMap, exUnesc, exLang⟩

/-- A text block. -/
def exTextBlock (id pid s : String) : DocxBlock :=
  { mkBlock id pid DocxBlockType.text [] with text := some (exText s) }

/-!
Claim C5 — inline style priority.
-/

/-- The six recognized style wrappers, in the spec's priority order. -/
inductive StyleFlag where
  | bold | italic | strikethrough | underline | inlineCode | link
deriving DecidableEq, Repr

/-- Modelled from the spec: the highest-priority style flag that is set,
evaluated in the fixed order bold, italic, strikethrough, underline,
inline-code, link. -/
def specHighestStyleFlag (style : TextElementStyle) : Option StyleFlag :=
  if style.bold then some StyleFlag.bold
  else if style.italic then some StyleFlag.italic
  else if style.strikethrough then some StyleFlag.strikethrough
  else if style.underline then some StyleFlag.underline
  else if style.inlineCode then some StyleFlag.inlineCode
  else
    match style.link with
    | some _ => some StyleFlag.link
    | none => none

/-- Modelled from the spec: the single wrapper a flag contributes
(Markdown delimiters, or HTML tags in HTML-tag mode; underline and inline
code have one form). -/
def specWrapper (env : Env) (style : TextElementStyle) : StyleFlag → String → String
  | StyleFlag.bold, c =>
    if env.useHTMLTags then "<strong>" ++ c ++ "</strong>" else "**" ++ c ++ "**"
  | StyleFlag.italic, c =>
    if env.useHTMLTags then "<em>" ++ c ++ "</em>" else "_" ++ c ++ "_"
  | StyleFlag.strikethrough, c =>
    if env.useHTMLTags then "<del>" ++ c ++ "</del>" else "~~" ++ c ++ "~~"
  | StyleFlag.underline, c => "<u>" ++ c ++ "</u>"
  | StyleFlag.inlineCode, c => "`" ++ c ++ "`"
  | StyleFlag.link, c =>
    "[" ++ c ++ "](" ++ env.unescapeURL ((style.link.map (fun l => l.url)).getD "") ++ ")"

/-- Modelled from the spec: a run with no flags emits its raw content;
otherwise exactly the highest-priority wrapper is applied once. -/
def specTextRunRender (env : Env) (tr : DocxTextElementTextRun) : String :=
  match tr.textElementStyle with
  | none => tr.content
  | some style =>
    match specHighestStyleFlag style with
    | none => tr.content
    | some f => specWrapper env style f tr.content

/-- Claim C5: for every text run the renderer applies exactly one
wrapper — the one for the highest-priority set flag in the fixed order
bold, italic, strikethrough, underline, inline-code, link — and a run
with no flags emits its raw content. -/
theorem c5_style_priority (env : Env) (tr : DocxTextElementTextRun) :
    ParseDocxTextElementTextRun env tr = specTextRunRender env tr := by
  rcases tr with ⟨content, style⟩
  rcases style with _ | ⟨b, i, s, u, c, l⟩
  · rfl
  · rcases l with _ | l <;> cases b <;> cases i <;> cases s <;> cases u <;> cases c <;> rfl

/-- Witness for C5 at concrete inputs: a run flagged both bold and italic
is wrapped only as bold; a flagless run is raw. -/
theorem c5_witness :
    ParseDocxTextElementTextRun (exEnvOf []) ⟨"x", some ⟨true, true, false, false, false, none⟩⟩
      = "**x**" ∧
    ParseDocxTextElementTextRun (exEnvOf []) ⟨"y", some ⟨false, false, false, false, false, none⟩⟩
      = "y" :=
  ⟨(c5_style_priority (exEnvOf []) ⟨"x", some ⟨true, true, false, false, false, none⟩⟩).trans
      (by decide),
   (c5_style_priority (exEnvOf []) ⟨"y", some ⟨false, false, false, false, false, none⟩⟩).trans
      (by decide)⟩

/-!
Claim C2 — ordered-list numbering.
-/

/-- Modelled from the spec: the number of consecutive ordered-type
siblings immediately preceding position `idx`, scanning backwards and
stopping at the first non-ordered sibling. -/
def specPrecedingOrderedCount (env : Env) (children : List String) (idx : Nat) : Nat :=
  (((children.take idx).reverse).takeWhile
    (fun id =>
      match env.blockMap id with
      | some blk => blk.blockType == DocxBlockType.ordered
      | none => false)).length

/-- The backward scan of `ParseDocxBlockOrdered` counts exactly the
consecutive ordered run, provided every scanned sibling resolves. -/
theorem countOrderedRun_eq_takeWhile (env : Env) :
    ∀ l : List String, (∀ id ∈ l, (env.blockMap id).isSome) →
    countOrderedRun env l =
      some ((l.takeWhile
        (fun id =>
          match env.blockMap id with
          | some blk => blk.blockType == DocxBlockType.ordered
          | none => false)).length) := by
  intro l
  induction l with
  | nil => intro _; rfl
  | cons a rest ih =>
    intro h
    have ha := h a (List.mem_cons_self a rest)
    obtain ⟨blk, hblk⟩ := Option.isSome_iff_exists.mp ha
    by_cases hb : blk.blockType = DocxBlockType.ordered
    · simp only [countOrderedRun, hblk]
      rw [if_pos hb, ih (fun x hx => h x (List.mem_cons_of_mem _ hx))]
      simp [List.takeWhile_cons, hblk, hb]
    · simp only [countOrderedRun, hblk]
      rw [if_neg hb]
      simp [List.takeWhile_cons, hblk, hb]

/-- Claim C2: for an ordered block found at position `idx` among its
parent's children, the printed number is one plus the count of
consecutive ordered-type siblings immediately preceding it (the scan
stops at the first non-ordered sibling). -/
theorem c2_ordered_numbering (env : Env) (b : DocxBlock) (parent : DocxBlock) (idx : Nat)
    (hp : env.blockMap b.parentID = some parent)
    (hidx : parent.children.findIdx? (fun c => c = b.blockID) = some idx)
    (hres : ∀ id ∈ parent.children.take idx, (env.blockMap id).isSome) :
    computeOrder env b = some (1 + specPrecedingOrderedCount env parent.children idx) := by
  unfold computeOrder specPrecedingOrderedCount
  simp only [hp, hidx]
  rw [countOrderedRun_eq_takeWhile env ((parent.children.take idx).reverse)
    (fun id hid => hres id (by simpa using hid))]
  rfl

/-- Sibling 1 of the spec's [ordered, ordered, bullet, ordered] example. -/
def c2A : DocxBlock :=
  { mkBlock "a" "P" DocxBlockType.ordered [] with ordered := some (exText "a") }

/-- Sibling 2 (ordered). -/
def c2B : DocxBlock :=
  { mkBlock "b" "P" DocxBlockType.ordered [] with ordered := some (exText "b") }

/-- Sibling 3 (bullet: interrupts the ordered run). -/
def c2C : DocxBlock :=
  { mkBlock "c" "P" DocxBlockType.bullet [] with bullet := some (exText "c") }

/-- Sibling 4 (ordered: restarts at 1). -/
def c2D : DocxBlock :=
  { mkBlock "d" "P" DocxBlockType.ordered [] with ordered := some (exText "d") }

/-- The common parent of the four siblings. -/
def c2Parent : DocxBlock := mkBlock "P" "" DocxBlockType.unknown ["a", "b", "c", "d"]

/-- Environment for the C2 example. -/
def c2Env : Env := exEnvOf [c2Parent, c2A, c2B, c2C, c2D]

/-- Witness for C2: on siblings [ordered, ordered, bullet, ordered] the
computed numbers are 1, 2 and (for the ordered sibling after the bullet)
1 again, and the rendered item after the bullet prints `1. `. -/
theorem c2_witness :
    computeOrder c2Env c2A = some 1 ∧ computeOrder c2Env c2B = some 2 ∧
    computeOrder c2Env c2D = some 1 ∧
    ParseDocxBlock 5 c2Env (some c2D) 0 = some ("1. d\n", []) :=
  ⟨(c2_ordered_numbering c2Env c2A c2Parent 0 (by decide) (by decide) (by decide)).trans
      (by decide),
   (c2_ordered_numbering c2Env c2B c2Parent 1 (by decide) (by decide) (by decide)).trans
      (by decide),
   (c2_ordered_numbering c2Env c2D c2Parent 3 (by decide) (by decide) (by decide)).trans
      (by decide),
   by decide⟩

/-!
Claim C6 — determinism of re-rendering and of the ImgTokens collection.
-/

/-- Lookup in the built block map: the last inserted block with the
identifier wins; identifiers never inserted fall through to the previous
map. -/
theorem buildBlockMap_lookup :
    ∀ (bs : List DocxBlock) (m : String → Option DocxBlock) (id : String),
    buildBlockMap bs m id =
      ((bs.reverse.find? (fun blk => blk.blockID == id)).or (m id)) := by
  intro bs
  induction bs with
  | nil => intro m id; simp [buildBlockMap]
  | cons b rest ih =>
    intro m id
    rw [buildBlockMap, ih]
    simp only [List.reverse_cons, List.find?_append]
    cases h : rest.reverse.find? (fun blk => blk.blockID == id) with
    | some x => simp [Option.or]
    | none =>
      simp only [Option.none_or]
      by_cases hb : b.blockID = id
      · simp [List.find?, hb]
      · have : (b.blockID == id) = false := by simp [hb]
        simp [List.find?, this, hb, Ne.symm hb]

/-- Re-inserting the same flat block collection leaves the block map
unchanged. -/
theorem buildBlockMap_idem (bs : List DocxBlock) (m : String → Option DocxBlock) :
    buildBlockMap bs (buildBlockMap bs m) = buildBlockMap bs m := by
  funext id
  rw [buildBlockMap_lookup, buildBlockMap_lookup]
  cases h : bs.reverse.find? (fun blk => blk.blockID == id) with
  | some x => simp [Option.or]
  | none => simp [Option.or]

/-- Document for the C6 image-token example. -/
def c6Doc : DocxDocument := ⟨"p", 1, "T"⟩

/-- Root page of the C6 example: an image, a text block, an image. -/
def c6Page : DocxBlock :=
  { mkBlock "p" "" DocxBlockType.page ["i1", "t1", "i2"] with page := some (exText "T") }

/-- First image block. -/
def c6Img1 : DocxBlock :=
  { mkBlock "i1" "p" DocxBlockType.image [] with image := some ⟨"tokA"⟩ }

/-- Second image block. -/
def c6Img2 : DocxBlock :=
  { mkBlock "i2" "p" DocxBlockType.image [] with image := some ⟨"tokB"⟩ }

/-- The flat block collection of the C6 example. -/
def c6Blocks : List DocxBlock :=
  [c6Page, c6Img1, exTextBlock "t1" "p" "x", c6Img2]

/-- Claim C6: rendering the same block index twice yields byte-identical
markdown and the identical image-token list (the second render starts
from the parser state the first one left behind), and on a concrete
document the ImgTokens collection holds exactly one token per image
block, in traversal order. -/
theorem c6_idempotent_render :
    (∀ (useHTML : Bool) (unesc : String → String) (langMap : Nat → String)
       (m0 : String → Option DocxBlock) (fuel : Nat) (doc : DocxDocument)
       (blocks : List DocxBlock),
       (ParseDocxContent useHTML unesc langMap
          (ParseDocxContent useHTML unesc langMap m0 fuel doc blocks).2 fuel doc blocks).1
         = (ParseDocxContent useHTML unesc langMap m0 fuel doc blocks).1)
    ∧ (ParseDocxContent false exUnesc exLang emptyBlockMap 10 c6Doc c6Blocks).1
        = some ("# T\n\n![](tokA)\n\nx\n\n![](tokB)\n\n", ["tokA", "tokB"]) := by
  constructor
  · intro useHTML unesc langMap m0 fuel doc blocks
    simp only [ParseDocxContent]
    rw [buildBlockMap_idem]
  · decide

/-!
Claim C1 — rendering a block with an unresolved child reference.
-/

/-- A nil looked-up block is dereferenced by the dispatch switch, for any
fuel. -/
theorem ParseDocxBlock_none_arg (fuel : Nat) (env : Env) (lvl : Nat) :
    ParseDocxBlock fuel env none lvl = none := by
  cases fuel <;> rfl

/-- An Option-valued `mapM` over a list fails when it fails on any
element. -/
theorem mapM_eq_none_of_mem {α β : Type} (f : α → Option β) :
    ∀ ids : List α, (∃ c ∈ ids, f c = none) → ids.mapM f = none := by
  intro ids
  induction ids with
  | nil =>
    rintro ⟨c, hc, _⟩
    cases hc
  | cons a rest ih =>
    rintro ⟨c, hc, hnone⟩
    rcases List.mem_cons.mp hc with rfl | hmem
    · simp only [List.mapM_cons, hnone]
      simp
    · cases h : f a with
      | none =>
        simp only [List.mapM_cons, h]
        simp
      | some v =>
        simp only [List.mapM_cons, h, ih ⟨c, hmem, hnone⟩]
        simp

/-- The block types whose renderers iterate over `b.Children`. -/
def childRenderingTypes : List DocxBlockType :=
  [DocxBlockType.page, DocxBlockType.callout,
   DocxBlockType.heading1, DocxBlockType.heading2, DocxBlockType.heading3,
   DocxBlockType.heading4, DocxBlockType.heading5, DocxBlockType.heading6,
   DocxBlockType.heading7, DocxBlockType.heading8, DocxBlockType.heading9,
   DocxBlockType.bullet, DocxBlockType.ordered, DocxBlockType.tableCell,
   DocxBlockType.quoteContainer, DocxBlockType.grid, DocxBlockType.unknown]

/-- Claim C1 as amended: for every block of a children-rendering type
whose children list contains an identifier that does not resolve in the
block index, rendering the block fails (the Go code dereferences the nil
looked-up child, a panic) — the unresolved reference is not skipped and
nothing is rendered. -/
theorem c1_unresolved_child_fails (fuel : Nat) (env : Env) (b : DocxBlock) (lvl : Nat)
    (hb : b.blockType ∈ childRenderingTypes)
    (hdangling : ∃ c ∈ b.children, env.blockMap c = none) :
    ParseDocxBlock fuel env (some b) lvl = none := by
  have hchild : ∀ (f l : Nat),
      b.children.mapM (fun id => ParseDocxBlock f env (env.blockMap id) l) = none := by
    intro f l
    apply mapM_eq_none_of_mem
    obtain ⟨c, hc, hn⟩ := hdangling
    exact ⟨c, hc, by rw [hn]; exact ParseDocxBlock_none_arg f env l⟩
  have hgrid : ∀ (f l : Nat),
      b.children.mapM (fun id =>
        match env.blockMap id with
        | none => none
        | some columnBlock =>
          (columnBlock.children.mapM (fun id2 => ParseDocxBlock f env (env.blockMap id2) l)).map
            (joinRendered "")) = none := by
    intro f l
    apply mapM_eq_none_of_mem
    obtain ⟨c, hc, hn⟩ := hdangling
    exact ⟨c, hc, by rw [hn]⟩
  cases fuel with
  | zero => rfl
  | succ fuel =>
    simp only [childRenderingTypes, List.mem_cons, List.not_mem_nil, or_false] at hb
    rcases hb with h|h|h|h|h|h|h|h|h|h|h|h|h|h|h|h|h
    · cases ht : ParseDocxBlockText env b.page <;>
        simp only [ParseDocxBlock, h, ParseDocxBlockPage, ht, hchild fuel 0] <;> simp
    · simp only [ParseDocxBlock, h, ParseDocxBlockCallout, hchild fuel 0]
      simp
    · cases ht : ParseDocxBlockText env (headingField b 1) <;>
        simp only [ParseDocxBlock, h, ParseDocxBlockHeading, ht, hchild fuel 0] <;> simp
    · cases ht : ParseDocxBlockText env (headingField b 2) <;>
        simp only [ParseDocxBlock, h, ParseDocxBlockHeading, ht, hchild fuel 0] <;> simp
    · cases ht : ParseDocxBlockText env (headingField b 3) <;>
        simp only [ParseDocxBlock, h, ParseDocxBlockHeading, ht, hchild fuel 0] <;> simp
    · cases ht : ParseDocxBlockText env (headingField b 4) <;>
        simp only [ParseDocxBlock, h, ParseDocxBlockHeading, ht, hchild fuel 0] <;> simp
    · cases ht : ParseDocxBlockText env (headingField b 5) <;>
        simp only [ParseDocxBlock, h, ParseDocxBlockHeading, ht, hchild fuel 0] <;> simp
    · cases ht : ParseDocxBlockText env (headingField b 6) <;>
        simp only [ParseDocxBlock, h, ParseDocxBlockHeading, ht, hchild fuel 0] <;> simp
    · cases ht : ParseDocxBlockText env (headingField b 7) <;>
        simp only [ParseDocxBlock, h, ParseDocxBlockHeading, ht, hchild fuel 0] <;> simp
    · cases ht : ParseDocxBlockText env (headingField b 8) <;>
        simp only [ParseDocxBlock, h, ParseDocxBlockHeading, ht, hchild fuel 0] <;> simp
    · cases ht : ParseDocxBlockText env (headingField b 9) <;>
        simp only [ParseDocxBlock, h, ParseDocxBlockHeading, ht, hchild fuel 0] <;> simp
    · cases ht : ParseDocxBlockText env b.bullet <;>
        simp only [ParseDocxBlock, h, ParseDocxBlockBullet, ht, hchild fuel (lvl + 1)] <;> simp
    · cases ho : computeOrder env b <;> cases ht : ParseDocxBlockText env b.ordered <;>
        simp only [ParseDocxBlock, h, ParseDocxBlockOrdered, ho, ht, hchild fuel (lvl + 1)] <;>
        simp
    · simp only [ParseDocxBlock, h, ParseDocxBlockTableCell, hchild fuel 0]
      simp
    · simp only [ParseDocxBlock, h, ParseDocxBlockQuoteContainer, hchild fuel 0]
      simp
    · simp only [ParseDocxBlock, h, ParseDocxBlockGrid, hgrid fuel lvl]
      simp
    · simp only [ParseDocxBlock, h, ParseDocxBlockChildrenDefault, hchild fuel lvl]
      simp

/-- Resolved child of the C1 example. -/
def c1Good : DocxBlock := exTextBlock "g" "p" "ok"

/-- Page with one resolved child and one dangling child identifier. -/
def c1PageBlk : DocxBlock :=
  { mkBlock "p" "" DocxBlockType.page ["g", "x"] with page := some (exText "T") }

/-- The same page with only the resolved child. -/
def c1PageOnlyGood : DocxBlock :=
  { mkBlock "p" "" DocxBlockType.page ["g"] with page := some (exText "T") }

/-- Environment for the C1 example: `"x"` does not resolve. -/
def c1Env : Env := exEnvOf [c1Good]

/-- Counterexample to C1 as stated: rendering a page whose children list
holds the unresolved identifier `"x"` yields no output at all (the claim
says the renderer must skip the reference and still render the resolved
child); with the dangling reference removed the very same render
succeeds, so the failure is the unresolved reference, not fuel. -/
theorem c1_counterexample :
    ParseDocxBlock 10 c1Env (some c1PageBlk) 0 = none ∧
    c1Env.blockMap "x" = none ∧ "x" ∈ c1PageBlk.children ∧
    ParseDocxBlock 10 c1Env (some c1PageOnlyGood) 0 = some ("# T\n\nok\n\n", []) := by
  refine ⟨by decide, by decide, by decide, by decide⟩

/-- Witness for the amended C1 theorem at the concrete example. -/
theorem c1_witness :
    c1PageBlk.blockType ∈ childRenderingTypes ∧
    (∃ c ∈ c1PageBlk.children, c1Env.blockMap c = none) ∧
    ParseDocxBlock 7 c1Env (some c1PageBlk) 0 = none :=
  ⟨by decide, by decide,
   c1_unresolved_child_fails 7 c1Env c1PageBlk 0 (by decide) (by decide)⟩

/-!
Claim C7 — indentation.
-/

/-- Bullet block with a nested bullet child. -/
def c7Bullet : DocxBlock :=
  { mkBlock "b1" "" DocxBlockType.bullet ["b2"] with bullet := some (exText "hi") }

/-- The nested bullet child. -/
def c7BulletChild : DocxBlock :=
  { mkBlock "b2" "b1" DocxBlockType.bullet [] with bullet := some (exText "ch") }

/-- Root holding the ordered example. -/
def c7Root : DocxBlock := mkBlock "root" "" DocxBlockType.unknown ["o1"]

/-- Ordered block with a nested ordered child. -/
def c7Ordered : DocxBlock :=
  { mkBlock "o1" "root" DocxBlockType.ordered ["o2"] with ordered := some (exText "o") }

/-- The nested ordered child. -/
def c7OrderedChild : DocxBlock :=
  { mkBlock "o2" "o1" DocxBlockType.ordered [] with ordered := some (exText "co") }

/-- Environment for the C7 examples. -/
def c7Env : Env :=
  exEnvOf [c7Root, c7Bullet, c7BulletChild, c7Ordered, c7OrderedChild]

/-- Claim C7 as amended: every successful render of a block at indent
level L starts with the L-fold indent unit, written once at block level;
bullet and ordered children are rendered at indent level L+1 (one more
indent unit), as the concrete nested examples show.  (Todo blocks render
no children at all — see the counterexample.) -/
theorem c7_indent :
    (∀ (fuel : Nat) (env : Env) (b : DocxBlock) (lvl : Nat) (s : String) (ts : List String),
       ParseDocxBlock fuel env (some b) lvl = some (s, ts) →
       ∃ rest, s = strRepeat "\t" lvl ++ rest)
    ∧ ParseDocxBlock 10 c7Env (some c7Bullet) 0 = some ("- hi\n\t- ch\n", [])
    ∧ ParseDocxBlock 10 c7Env (some c7Ordered) 0 = some ("1. o\n\t1. co\n", []) := by
  refine ⟨?_, by decide, by decide⟩
  intro fuel env b lvl s ts h
  cases fuel with
  | zero => simp [ParseDocxBlock] at h
  | succ fuel =>
    simp only [ParseDocxBlock] at h
    rcases Option.map_eq_some'.mp h with ⟨r, hbody, hr⟩
    exact ⟨r.1, (congrArg Prod.fst hr).symm⟩

/-- Witness for C7 at a concrete input: the nested bullet rendered at
indent level 2 carries exactly two indent units. -/
theorem c7_witness :
    ParseDocxBlock 10 c7Env (some c7BulletChild) 2 = some ("\t\t- ch\n", []) ∧
    ∃ rest, "\t\t- ch\n" = strRepeat "\t" 2 ++ rest :=
  ⟨by decide, c7_indent.1 10 c7Env c7BulletChild 2 "\t\t- ch\n" [] (by decide)⟩

/-- Todo block with a child (and the child's own content "CHILD"). -/
def c7Todo : DocxBlock :=
  { mkBlock "td" "" DocxBlockType.todo ["tc"] with
      todo := some ⟨some ⟨0, false⟩, [exElem "hi"]⟩ }

/-- The todo block's child. -/
def c7TodoChild : DocxBlock := exTextBlock "tc" "td" "CHILD"

/-- Environment for the todo counterexample. -/
def c7TodoEnv : Env := exEnvOf [c7Todo, c7TodoChild]

/-- Counterexample to C7 as stated: a todo block's children are not
rendered at all — the child resolves and renders on its own, but its
content is absent from the todo block's output. -/
theorem c7_counterexample :
    ParseDocxBlock 10 c7TodoEnv (some c7Todo) 0 = some ("- [ ] hi\n", []) ∧
    "tc" ∈ c7Todo.children ∧
    ParseDocxBlock 10 c7TodoEnv (c7TodoEnv.blockMap "tc") 1 = some ("\tCHILD\n", []) ∧
    ¬ containsStr "- [ ] hi\n" "CHILD" := by
  refine ⟨by decide, by decide, by decide, by decide⟩

/-!
Claim C8 — quote-container output.
-/

/-- `String.join` distributes over cons (auxiliary: `foldl (++)` from an
accumulator). -/
theorem strFoldlAppend (l : List String) :
    ∀ a : String,
      List.foldl (fun r s => r ++ s) a l = a ++ List.foldl (fun r s => r ++ s) "" l := by
  induction l with
  | nil => intro a; simp [String.append_empty]
  | cons x xs ih =>
    intro a
    simp only [List.foldl_cons]
    rw [ih (a ++ x), ih ("" ++ x), ← String.append_assoc]
    simp

/-- `String.join (a :: l) = a ++ String.join l`. -/
theorem strJoin_cons (a : String) (l : List String) :
    String.join (a :: l) = a ++ String.join l := by
  simp only [String.join, List.foldl_cons]
  rw [strFoldlAppend l ("" ++ a)]
  simp

/-- Modelled from the claim's words (no `> ` prefix): each child's
rendering with trailing newlines trimmed and two trailing spaces
appended, joined by a newline after every child except the last. -/
def specQuoteContainerClaim (pieces : List String) : String :=
  match pieces.map (fun c => trimRightNewlines c ++ "  ") with
  | [] => ""
  | p :: ps => p ++ String.join (ps.map (fun q => "\n" ++ q))

/-- The amended formula: as the claim says, but each piece is prefixed by
`> `. -/
def specQuoteContainerAmended (pieces : List String) : String :=
  match pieces.map (fun c => "> " ++ trimRightNewlines c ++ "  ") with
  | [] => ""
  | p :: ps => p ++ String.join (ps.map (fun q => "\n" ++ q))

/-- The renderer's quote-container loop computes the amended formula. -/
theorem qcJoin_eq_specAmended : ∀ pieces, qcJoin pieces = specQuoteContainerAmended pieces := by
  intro pieces
  induction pieces with
  | nil => rfl
  | cons c rest ih =>
    cases rest with
    | nil => simp [qcJoin, specQuoteContainerAmended, String.join, String.append_empty]
    | cons c2 rest2 =>
      rw [show qcJoin (c :: c2 :: rest2)
            = "> " ++ trimRightNewlines c ++ "  " ++ "\n" ++ qcJoin (c2 :: rest2) from rfl, ih]
      simp only [specQuoteContainerAmended, List.map_cons, strJoin_cons, List.map_map,
        String.append_assoc]

/-- Claim C8 as amended: a quote-container block renders as — for each
child, `> ` followed by the child's rendering with its trailing newlines
trimmed and two trailing spaces appended — joined by a newline after
every child except the last (the claim omitted the `> ` prefix). -/
theorem c8_quote_container (fuel : Nat) (env : Env) (b : DocxBlock) (lvl : Nat)
    (rs : List (String × List String))
    (hbt : b.blockType = DocxBlockType.quoteContainer)
    (hch : b.children.mapM (fun id => ParseDocxBlock fuel env (env.blockMap id) 0) = some rs) :
    ParseDocxBlock (fuel + 1) env (some b) lvl =
      some (strRepeat "\t" lvl ++ specQuoteContainerAmended (rs.map (fun r => r.1)),
            (rs.map (fun r => r.2)).flatten) := by
  simp only [ParseDocxBlock, hbt, ParseDocxBlockQuoteContainer, hch, Option.map_some',
    qcJoin_eq_specAmended]

/-- Quote-container with a single text child for the counterexample. -/
def c8QC : DocxBlock := mkBlock "q" "" DocxBlockType.quoteContainer ["a"]

/-- Environment for the C8 counterexample. -/
def c8Env : Env := exEnvOf [c8QC, exTextBlock "a" "q" "a"]

/-- Counterexample to C8 as stated: the child renders as "a\n", so the
claim's formula gives "a  ", but the code emits "> a  " — the `> `
prefix the claim omits. -/
theorem c8_counterexample :
    ParseDocxBlock 10 c8Env (some c8QC) 0 = some ("> a  ", []) ∧
    specQuoteContainerClaim ["a\n"] = "a  " ∧
    "> a  " ≠ "a  " := by
  refine ⟨by decide, by decide, by decide⟩

/-- Quote-container with two children for the witness. -/
def c8QC2 : DocxBlock := mkBlock "q2" "" DocxBlockType.quoteContainer ["x1", "x2"]

/-- Environment for the C8 witness. -/
def c8Env2 : Env := exEnvOf [c8QC2, exTextBlock "x1" "q2" "x", exTextBlock "x2" "q2" "y"]

/-- Witness for the amended C8 theorem at a concrete two-child input. -/
theorem c8_witness :
    ParseDocxBlock 10 c8Env2 (some c8QC2) 0 = some ("> x  \n> y  ", []) :=
  (c8_quote_container 9 c8Env2 c8QC2 0 [("x\n", []), ("y\n", [])]
      (by decide) (by decide)).trans (by decide)

/-!
Claim C3 — table rendering with merged cells.
-/

/-- A table cell block holding one text child. -/
def c3Cell (cid tid : String) : DocxBlock :=
  mkBlock cid "tb" DocxBlockType.tableCell [tid]

/-- 2×2 table with a rowspan-2 merge anchored at grid position (0,0)
(the single merge entry at index 0 keys (0 / 2, 0 % 2) = (0,0)). -/
def c3Table : DocxBlockTable := ⟨["c00", "c01", "c10", "c11"], ⟨2, 2, [some ⟨2, 1⟩]⟩⟩

/-- The table block. -/
def c3TableBlk : DocxBlock :=
  { mkBlock "tb" "" DocxBlockType.table [] with table := some c3Table }

/-- Environment for the C3 example: four cells with contents a, b, c, d. -/
def c3Env : Env := exEnvOf
  [c3Cell "c00" "t00", exTextBlock "t00" "c00" "a",
   c3Cell "c01" "t01", exTextBlock "t01" "c01" "b",
   c3Cell "c10" "t10", exTextBlock "t10" "c10" "c",
   c3Cell "c11" "t11", exTextBlock "t11" "c11" "d"]

/-- The rendered table of the C3 example. -/
def c3Expected : String :=
  "<table>\n<tr>\n<td rowspan=\"2\">a<br/></td><td>b<br/></td></tr>\n<tr>\n<td>d<br/></td></tr>\n</table>\n"

/-- Claim C3: cells are placed at (i div columnCount, i mod columnCount);
the 2×2 grid with a rowspan-2 merge at (0,0) renders exactly one
`<td rowspan="2">`, no colspan attribute, no `<td>` for the covered cell
beneath the merge (3 `<td>` in total for 4 grid positions), and the
remaining cells render plain. -/
theorem c3_table_merge :
    ParseDocxBlock 10 c3Env (some c3TableBlk) 0 = some (c3Expected, []) ∧
    countSubstr c3Expected "<td" = 3 ∧
    countSubstr c3Expected "rowspan" = 1 ∧
    countSubstr c3Expected "colspan" = 0 ∧
    countSubstr c3Expected "<td>c<br/></td>" = 0 := by
  refine ⟨by decide, by decide, by decide, by decide, by decide⟩

/-!
Claim C4 — first-error aggregation of the crawl.
-/

/-- Five leaf tasks, task #3 fails, the others succeed. -/
def c4Tasks : List CrawlTask :=
  [⟨none, some "o1"⟩, ⟨none, some "o2"⟩, ⟨some "e3", none⟩,
   ⟨none, some "o4"⟩, ⟨none, some "o5"⟩]

/-- Claim C4: whatever completion order the five tasks race into, the
walk returns exactly the failing task's error (the only error the channel
ever receives, hence the first), and every successful task's output is on
disk — no rollback. -/
theorem c4_first_error (completed : List CrawlTask) (hperm : completed.Perm c4Tasks) :
    walkResult completed = some "e3" ∧
    ∀ o ∈ ["o1", "o2", "o4", "o5"], o ∈ diskOutputs completed := by
  constructor
  · have h1 : (receivedErrors completed).Perm (receivedErrors c4Tasks) :=
      hperm.filterMap _
    have h2 : receivedErrors c4Tasks = ["e3"] := by decide
    rw [h2] at h1
    have h3 := List.perm_singleton.mp h1
    rw [walkResult, h3]
    rfl
  · intro o ho
    have h4 : (diskOutputs completed).Perm (diskOutputs c4Tasks) := hperm.filterMap _
    have h5 : o ∈ diskOutputs c4Tasks := by
      have : diskOutputs c4Tasks = ["o1", "o2", "o4", "o5"] := by decide
      rw [this]
      exact ho
    exact h4.mem_iff.mpr h5

/-- Witness for C4: the theorem applied at two concrete completion
orders — dispatch order and fully reversed — returns the same single
error and keeps all four outputs. -/
theorem c4_witness :
    (walkResult c4Tasks = some "e3" ∧
      ∀ o ∈ ["o1", "o2", "o4", "o5"], o ∈ diskOutputs c4Tasks) ∧
    (walkResult c4Tasks.reverse = some "e3" ∧
      ∀ o ∈ ["o1", "o2", "o4", "o5"], o ∈ diskOutputs c4Tasks.reverse) :=
  ⟨c4_first_error c4Tasks (List.Perm.refl _),
   c4_first_error c4Tasks.reverse (by decide)⟩

/-!
Claim C9 — concurrency ceiling of the wiki walk, unbounded folder walk.
-/

/-- Invariant of the wiki walk: a task only runs while holding a permit,
and at most 10 permits exist (the semaphore channel's capacity). -/
theorem wiki_invariant (s : WikiWalkState) (h : ReachableWiki s) :
    s.running ≤ s.permits ∧ s.permits ≤ 10 := by
  induction h with
  | init => exact ⟨by decide, by decide⟩
  | step hr hstep ih =>
    obtain ⟨ih1, ih2⟩ := ih
    cases hstep with
    | dispatch ht =>
      dsimp only
      omega
    | finish ht =>
      dsimp only
      omega

/-- Claim C9: in every reachable state of the hierarchical-wiki walk at
most 10 leaf tasks run simultaneously, while the flat-folder walk reaches
states with any number of simultaneously running leaf tasks (no bound). -/
theorem c9_concurrency_bound :
    (∀ s, ReachableWiki s → s.running ≤ 10) ∧ (∀ n, ReachableFolder ⟨n⟩) := by
  constructor
  · intro s h
    exact le_trans (wiki_invariant s h).1 (wiki_invariant s h).2
  · intro n
    induction n with
    | zero => exact ReachableFolder.init
    | succ k ih => exact ReachableFolder.step ih (FolderStep.dispatch ⟨k⟩)

/-- Witness for C9: the bound theorem applied to a concrete reachable
wiki state, and a folder state with 11 running tasks (one more than the
wiki ceiling). -/
theorem c9_witness :
    (⟨1, 1⟩ : WikiWalkState).running ≤ 10 ∧ ReachableFolder ⟨11⟩ :=
  ⟨c9_concurrency_bound.1 ⟨1, 1⟩
      (ReachableWiki.step ReachableWiki.init (WikiStep.dispatch ⟨0, 0⟩ (by decide))),
   c9_concurrency_bound.2 11⟩

/-!
Claim C10 — placeholder fallback of DownloadFile.
-/

/-- Claim C10: when both remote download APIs fail, DownloadFile does not
return the remote error — it behaves as createFilePlaceholder: with the
local file system healthy it returns the `title + ".md"` path in the
destination directory with a nil error; a non-nil error arises only from
a local file-system operation; and the placeholder content contains the
file type, the token, and a link to the original. -/
theorem c10_download_fallback (driveFile media : DriveAPIResult) (fs : LocalFS)
    (fileToken outDir objType title : String)
    (hd : driveFile.err.isSome) (hm : media.err.isSome) :
    DownloadFile driveFile media fs fileToken outDir objType title
      = createFilePlaceholder fs fileToken outDir objType title ∧
    (fs.mkdirAllErr = none → fs.writeFileErr = none →
      DownloadFile driveFile media fs fileToken outDir objType title
        = (pathJoin outDir (title ++ ".md"), none)) ∧
    (∀ e, (DownloadFile driveFile media fs fileToken outDir objType title).2 = some e →
      fs.mkdirAllErr = some e ∨ fs.writeFileErr = some e) ∧
    (∃ pre post, placeholderContent fileToken objType title = pre ++ fileToken ++ post) ∧
    (∃ pre post,
      placeholderContent fileToken objType title = pre ++ fileTypeOf objType ++ post) ∧
    (∃ pre post,
      placeholderContent fileToken objType title
        = pre ++ "https://jinniuai.feishu.cn/" ++ post) := by
  obtain ⟨de, hde⟩ := Option.isSome_iff_exists.mp hd
  obtain ⟨me, hme⟩ := Option.isSome_iff_exists.mp hm
  have hmain : DownloadFile driveFile media fs fileToken outDir objType title
      = createFilePlaceholder fs fileToken outDir objType title := by
    simp only [DownloadFile, hde, hme]
  refine ⟨hmain, ?_, ?_, ?_, ?_, ?_⟩
  · intro h1 h2
    rw [hmain]
    simp only [createFilePlaceholder, h1, h2]
  · intro e he
    rw [hmain] at he
    unfold createFilePlaceholder at he
    cases hmk : fs.mkdirAllErr with
    | some x =>
      left
      rw [hmk] at he
      simp at he
      rw [he]
    | none =>
      cases hw : fs.writeFileErr with
      | some x =>
        right
        rw [hmk, hw] at he
        simp at he
        rw [he]
      | none =>
        rw [hmk, hw] at he
        simp at he
  · refine ⟨"# " ++ title ++ "\n\n**文件类型**: " ++ fileTypeOf objType ++ "\n\n"
        ++ "**文件Token**: `",
      "`\n\n" ++ "**提示**: 这是一个" ++ fileTypeOf objType
        ++ "文件，无法直接转换为Markdown。\n\n"
        ++ "请访问飞书查看原始文件: [点击打开](https://jinniuai.feishu.cn/"
        ++ objType ++ "/" ++ fileToken ++ ")\n", ?_⟩
    simp [placeholderContent, String.append_assoc]
  · refine ⟨"# " ++ title ++ "\n\n**文件类型**: ",
      "\n\n" ++ "**文件Token**: `" ++ fileToken ++ "`\n\n"
        ++ "**提示**: 这是一个" ++ fileTypeOf objType
        ++ "文件，无法直接转换为Markdown。\n\n"
        ++ "请访问飞书查看原始文件: [点击打开](https://jinniuai.feishu.cn/"
        ++ objType ++ "/" ++ fileToken ++ ")\n", ?_⟩
    simp [placeholderContent, String.append_assoc]
  · refine ⟨"# " ++ title ++ "\n\n**文件类型**: " ++ fileTypeOf objType ++ "\n\n"
        ++ "**文件Token**: `" ++ fileToken ++ "`\n\n"
        ++ "**提示**: 这是一个" ++ fileTypeOf objType
        ++ "文件，无法直接转换为Markdown。\n\n"
        ++ "请访问飞书查看原始文件: [点击打开](",
      objType ++ "/" ++ fileToken ++ ")\n", ?_⟩
    simp [placeholderContent, String.append_assoc]

/-- Witness for C10 at concrete inputs: both APIs fail, the local file
system is healthy, and the placeholder path comes back with a nil
error. -/
theorem c10_witness :
    DownloadFile ⟨some "remote err A", none⟩ ⟨some "remote err B", none⟩
        ⟨none, none, none, none⟩ "tok123" "out" "mindnote" "Doc"
      = ("out/Doc.md", none) :=
  ((c10_download_fallback ⟨some "remote err A", none⟩ ⟨some "remote err B", none⟩
      ⟨none, none, none, none⟩ "tok123" "out" "mindnote" "Doc"
      (by decide) (by decide)).2.1 rfl rfl).trans (by decide)
